import Mathlib

/-
Verification of the FoundationDesign library (Eurocode pad and combined footing
analysis/design).  The Python source is shallowly embedded over the rationals:
Python floats become exact rationals, the builtin round becomes round half to
even, and functions that print or raise are modelled by explicit output and
Except/Option values.  All state mutation is modelled by explicit state passing
on structures whose fields mirror the Python attributes.
-/

namespace FoundationDesign

/-- Model of the Python builtin `round(x)`: round to the nearest integer,
with ties going to the even integer (banker's rounding). -/
def pyRound (q : ℚ) : ℤ :=
  let f := ⌊q⌋
  let r := q - (f : ℚ)
  if r < 1/2 then f
  else if 1/2 < r then f + 1
  else if f % 2 = 0 then f else f + 1

/-- Model of the Python builtin `round(x, n)`: round to `n` decimal places,
ties to even. -/
def roundTo (n : ℕ) (q : ℚ) : ℚ :=
  (pyRound (q * 10 ^ n) : ℚ) / 10 ^ n

/-- Model of the Python builtin `int(x)` on floats: truncation toward zero. -/
def pyInt (q : ℚ) : ℤ :=
  if 0 ≤ q then ⌊q⌋ else -⌊-q⌋

/-- The exact rational value of the IEEE-754 double `math.pi` used by the
Python source (3.141592653589793...). -/
def piFloat : ℚ := 884279719003555 / 281474976710656

/--
State of `PadFoundation` (foundationdesign.py, lines 26-209): footing and
column geometry stored in metres, unit weights and bearing capacity as given,
and the fifteen load attributes in kN / kNm.  Fields carry the names of the
Python attributes.
-/
structure PadFoundation where
  foundation_length : ℚ
  foundation_width : ℚ
  column_length : ℚ
  column_width : ℚ
  soil_bearing_capacity : ℚ
  foundation_thickness : ℚ
  soil_depth_abv_foundation : ℚ
  soil_unit_weight : ℚ
  concrete_unit_weight : ℚ
  permanent_axial_load : ℚ
  permanent_horizontal_load_xdir : ℚ
  permanent_horizontal_load_ydir : ℚ
  permanent_moment_xdir : ℚ
  permanent_moment_ydir : ℚ
  imposed_axial_load : ℚ
  imposed_horizontal_load_xdir : ℚ
  imposed_horizontal_load_ydir : ℚ
  imposed_moment_xdir : ℚ
  imposed_moment_ydir : ℚ
  wind_axial_load : ℚ
  wind_horizontal_load_xdir : ℚ
  wind_horizontal_load_ydir : ℚ
  wind_moments_xdir : ℚ
  wind_moments_ydir : ℚ
  col_pos_xdir : ℚ
  col_pos_ydir : ℚ

namespace PadFoundation

/-- Class attribute `uls_strength_factor_permanent` (source line 116). -/
def uls_strength_factor_permanent : ℚ := 1.35

/-- Class attribute `uls_strength_factor_imposed` (source line 117). -/
def uls_strength_factor_imposed : ℚ := 1.5

/-- Class attribute `uls_strength_factor_imposed_unfavourable` (source line 118). -/
def uls_strength_factor_imposed_unfavourable : ℚ := 0

/--
Constructor `PadFoundation.__init__` (source lines 120-209): millimetre inputs
are normalized to metres, every load attribute starts at zero, thickness and
soil depth start at zero, unit weights at 18 and 24.  The numeric-range
asserts performed by the (external) datavalidation module hold for every
state considered here and do not affect the stored state.
-/
def init (foundation_length foundation_width column_length column_width
    col_pos_xdir col_pos_ydir : ℚ) (soil_bearing_capacity : ℚ := 150) :
    PadFoundation where
  foundation_length := foundation_length / 1000
  foundation_width := foundation_width / 1000
  column_length := column_length / 1000
  column_width := column_width / 1000
  soil_bearing_capacity := soil_bearing_capacity
  foundation_thickness := 0
  soil_depth_abv_foundation := 0
  soil_unit_weight := 18
  concrete_unit_weight := 24
  permanent_axial_load := 0
  permanent_horizontal_load_xdir := 0
  permanent_horizontal_load_ydir := 0
  permanent_moment_xdir := 0
  permanent_moment_ydir := 0
  imposed_axial_load := 0
  imposed_horizontal_load_xdir := 0
  imposed_horizontal_load_ydir := 0
  imposed_moment_xdir := 0
  imposed_moment_ydir := 0
  wind_axial_load := 0
  wind_horizontal_load_xdir := 0
  wind_horizontal_load_ydir := 0
  wind_moments_xdir := 0
  wind_moments_ydir := 0
  col_pos_xdir := col_pos_xdir / 1000
  col_pos_ydir := col_pos_ydir / 1000

/-- Method `area_of_foundation` (source lines 211-220). -/
def area_of_foundation (self : PadFoundation) : ℚ :=
  self.foundation_length * self.foundation_width

/--
Method `foundation_loads` (source lines 262-319): stores the four inputs
(the two depths normalized from mm to m) and returns the rounded pair
(self weight, soil weight).  The Python method mutates `self` and returns a
list; here the updated state and the returned pair are given together.
-/
def foundation_loads (self : PadFoundation) (foundation_thickness
    soil_depth_abv_foundation soil_unit_weight concrete_unit_weight : ℚ) :
    PadFoundation × (ℚ × ℚ) :=
  let s := { self with
    foundation_thickness := foundation_thickness / 1000
    soil_depth_abv_foundation := soil_depth_abv_foundation / 1000
    soil_unit_weight := soil_unit_weight
    concrete_unit_weight := concrete_unit_weight }
  (s, (roundTo 3 (s.foundation_thickness * s.concrete_unit_weight),
       roundTo 3 (s.soil_depth_abv_foundation * s.soil_unit_weight)))

/-- The internal call pattern `self.foundation_loads(self.foundation_thickness
* 1000, self.soil_depth_abv_foundation * 1000, self.soil_unit_weight,
self.concrete_unit_weight)` used by every total-load query (e.g. source lines
512-517): it leaves the state unchanged and yields the rounded load pair. -/
def fdn_loads (self : PadFoundation) : ℚ × ℚ :=
  (self.foundation_loads (self.foundation_thickness * 1000)
    (self.soil_depth_abv_foundation * 1000)
    self.soil_unit_weight self.concrete_unit_weight).2

/-- Method `column_axial_loads` (source lines 321-346), numeric-input path:
the three stored loads are replaced by the arguments. -/
def column_axial_loads (self : PadFoundation)
    (permanent_axial_load imposed_axial_load wind_axial_load : ℚ) :
    PadFoundation :=
  { self with
    permanent_axial_load := permanent_axial_load
    imposed_axial_load := imposed_axial_load
    wind_axial_load := wind_axial_load }

/-- Method `column_horizontal_loads_xdir` (source lines 348-381). -/
def column_horizontal_loads_xdir (self : PadFoundation)
    (permanent_horizontal_load_xdir imposed_horizontal_load_xdir
     wind_horizontal_load_xdir : ℚ) : PadFoundation :=
  { self with
    permanent_horizontal_load_xdir := permanent_horizontal_load_xdir
    imposed_horizontal_load_xdir := imposed_horizontal_load_xdir
    wind_horizontal_load_xdir := wind_horizontal_load_xdir }

/-- Method `column_horizontal_loads_ydir` (source lines 383-415). -/
def column_horizontal_loads_ydir (self : PadFoundation)
    (permanent_horizontal_load_ydir imposed_horizontal_load_ydir
     wind_horizontal_load_ydir : ℚ) : PadFoundation :=
  { self with
    permanent_horizontal_load_ydir := permanent_horizontal_load_ydir
    imposed_horizontal_load_ydir := imposed_horizontal_load_ydir
    wind_horizontal_load_ydir := wind_horizontal_load_ydir }

/-- Method `column_moments_xdir` (source lines 417-441). -/
def column_moments_xdir (self : PadFoundation)
    (permanent_moment_xdir imposed_moment_xdir wind_moments_xdir : ℚ) :
    PadFoundation :=
  { self with
    permanent_moment_xdir := permanent_moment_xdir
    imposed_moment_xdir := imposed_moment_xdir
    wind_moments_xdir := wind_moments_xdir }

/-- Method `column_moments_ydir` (source lines 443-468). -/
def column_moments_ydir (self : PadFoundation)
    (permanent_moment_ydir imposed_moment_ydir wind_moments_ydir : ℚ) :
    PadFoundation :=
  { self with
    permanent_moment_ydir := permanent_moment_ydir
    imposed_moment_ydir := imposed_moment_ydir
    wind_moments_ydir := wind_moments_ydir }

/-- Method `total_force_X_dir_sls` (source lines 470-484). -/
def total_force_X_dir_sls (self : PadFoundation) : ℚ :=
  self.permanent_horizontal_load_xdir + self.imposed_horizontal_load_xdir
    + self.wind_horizontal_load_xdir

/-- Method `total_force_Y_dir_sls` (source lines 486-500). -/
def total_force_Y_dir_sls (self : PadFoundation) : ℚ :=
  self.permanent_horizontal_load_ydir + self.imposed_horizontal_load_ydir
    + self.wind_horizontal_load_ydir

/-- Method `total_force_Z_dir_sls` (source lines 502-523). -/
def total_force_Z_dir_sls (self : PadFoundation) : ℚ :=
  self.permanent_axial_load + self.imposed_axial_load + self.wind_axial_load
    + self.area_of_foundation * (self.fdn_loads.1 + self.fdn_loads.2)

/-- Method `total_moments_X_direction_sls` (source lines 525-556). -/
def total_moments_X_direction_sls (self : PadFoundation) : ℚ :=
  roundTo 3 (
    self.area_of_foundation * (self.fdn_loads.1 + self.fdn_loads.2)
        * (self.foundation_length / 2)
      + self.permanent_axial_load * self.col_pos_xdir
      + self.permanent_moment_xdir
      + self.permanent_horizontal_load_xdir * self.foundation_thickness
      + self.imposed_axial_load * self.col_pos_xdir
      + self.imposed_moment_xdir
      + self.imposed_horizontal_load_xdir * self.foundation_thickness
      + self.wind_axial_load * self.col_pos_xdir
      + self.wind_moments_xdir
      + self.wind_horizontal_load_xdir * self.foundation_thickness)

/-- Method `total_moments_Y_direction_sls` (source lines 558-588). -/
def total_moments_Y_direction_sls (self : PadFoundation) : ℚ :=
  roundTo 3 (
    self.area_of_foundation * (self.fdn_loads.1 + self.fdn_loads.2)
        * self.foundation_width / 2
      + self.permanent_axial_load * self.col_pos_ydir
      + self.permanent_moment_ydir
      + self.permanent_horizontal_load_ydir * self.foundation_thickness
      + self.imposed_axial_load * self.col_pos_ydir
      + self.imposed_moment_ydir
      + self.imposed_horizontal_load_ydir * self.foundation_thickness
      + self.wind_axial_load * self.col_pos_ydir
      + self.wind_moments_ydir
      + self.wind_horizontal_load_ydir * self.foundation_thickness)

/-- Method `eccentricity_X_direction_sls` (source lines 590-602): the
eccentricity in millimetres, rounded by the Python builtin to an integer. -/
def eccentricity_X_direction_sls (self : PadFoundation) : ℤ :=
  pyRound (1000 * (self.total_moments_X_direction_sls
    / self.total_force_Z_dir_sls - self.foundation_length / 2))

/-- Method `eccentricity_Y_direction_sls` (source lines 604-616). -/
def eccentricity_Y_direction_sls (self : PadFoundation) : ℤ :=
  pyRound (1000 * (self.total_moments_Y_direction_sls
    / self.total_force_Z_dir_sls - self.foundation_width / 2))

/-- Method `pad_base_pressures_sls` (source lines 678-778): the four corner
pressures q1, q2, q3, q4, each rounded to 3 decimal places. -/
def pad_base_pressures_sls (self : PadFoundation) : ℚ × ℚ × ℚ × ℚ :=
  let ex : ℚ := self.eccentricity_X_direction_sls
  let ey : ℚ := self.eccentricity_Y_direction_sls
  let F := self.total_force_Z_dir_sls
  let q1 := F * ((1 - 6 * (ex / (self.foundation_length * 1000))
      - 6 * (ey / (self.foundation_width * 1000))) / self.area_of_foundation)
  let q2 := F * ((1 - 6 * (ex / (self.foundation_length * 1000))
      + 6 * (ey / (self.foundation_width * 1000))) / self.area_of_foundation)
  let q3 := F * ((1 + 6 * (ex / (self.foundation_length * 1000))
      - 6 * (ey / (self.foundation_width * 1000))) / self.area_of_foundation)
  let q4 := F * ((1 + 6 * (ex / (self.foundation_length * 1000))
      + 6 * (ey / (self.foundation_width * 1000))) / self.area_of_foundation)
  (roundTo 3 q1, roundTo 3 q2, roundTo 3 q3, roundTo 3 q4)

/-- Method `bearing_pressure_check_sls` (source lines 780-802).  The Python
function prints one of two fixed messages and returns the value of
`print(...)`, which is `None`.  The model yields the pair (returned value,
printed text); the returned value is `Option.none` on both branches. -/
def bearing_pressure_check_sls (self : PadFoundation) :
    Option String × String :=
  let q := self.pad_base_pressures_sls
  let minimum_pad_pressure := min (min (min q.1 q.2.1) q.2.2.1) q.2.2.2
  let maximum_pad_pressure := max (max (max q.1 q.2.1) q.2.2.1) q.2.2.2
  if minimum_pad_pressure ≤ self.soil_bearing_capacity ∧
      maximum_pad_pressure ≤ self.soil_bearing_capacity then
    (none, "PASS - Presumed bearing capacity exceeds design base pressure")
  else
    (none, "Fail - Presumed bearing capacity lesser than design base pressure")

/-- Method `total_force_Z_dir_uls` (source lines 891-916). -/
def total_force_Z_dir_uls (self : PadFoundation) : ℚ :=
  roundTo 3 (
    uls_strength_factor_imposed * self.imposed_axial_load
      + uls_strength_factor_imposed * self.wind_axial_load
      + uls_strength_factor_permanent
        * (self.permanent_axial_load
          + self.area_of_foundation * (self.fdn_loads.1 + self.fdn_loads.2)))

/-- Method `total_moments_X_direction_uls` (source lines 918-959). -/
def total_moments_X_direction_uls (self : PadFoundation) : ℚ :=
  roundTo 3 (
    uls_strength_factor_permanent
        * (self.area_of_foundation * (self.fdn_loads.1 + self.fdn_loads.2)
            * self.foundation_length / 2
          + self.permanent_axial_load * self.col_pos_xdir)
      + uls_strength_factor_permanent * self.permanent_moment_xdir
      + uls_strength_factor_imposed * self.imposed_axial_load * self.col_pos_xdir
      + uls_strength_factor_imposed * self.imposed_moment_xdir
      + uls_strength_factor_imposed * self.wind_axial_load * self.col_pos_xdir
      + uls_strength_factor_imposed * self.wind_moments_xdir
      + (uls_strength_factor_permanent * self.permanent_horizontal_load_xdir
          + uls_strength_factor_imposed * self.imposed_horizontal_load_xdir
          + uls_strength_factor_imposed * self.wind_horizontal_load_xdir)
        * self.foundation_thickness)

/-- Method `total_moments_Y_direction_uls` (source lines 961-1002).  Note:
at source line 990 the imposed moment term is multiplied by
`uls_strength_factor_imposed_unfavourable`, unlike the X-direction method
which multiplies its imposed moment by `uls_strength_factor_imposed`. -/
def total_moments_Y_direction_uls (self : PadFoundation) : ℚ :=
  roundTo 3 (
    uls_strength_factor_permanent
        * (self.area_of_foundation * (self.fdn_loads.1 + self.fdn_loads.2)
            * self.foundation_width / 2
          + self.permanent_axial_load * self.col_pos_ydir)
      + uls_strength_factor_permanent * self.permanent_moment_ydir
      + uls_strength_factor_imposed * self.imposed_axial_load * self.col_pos_ydir
      + uls_strength_factor_imposed_unfavourable * self.imposed_moment_ydir
      + uls_strength_factor_imposed * self.wind_axial_load * self.col_pos_ydir
      + uls_strength_factor_imposed * self.wind_moments_ydir
      + (uls_strength_factor_permanent * self.permanent_horizontal_load_ydir
          + uls_strength_factor_imposed * self.imposed_horizontal_load_ydir
          + uls_strength_factor_imposed * self.wind_horizontal_load_ydir)
        * self.foundation_thickness)

end PadFoundation

/-- Effective depth `self.dx` of the design classes (foundationdesign.py lines
1283-1287 and combinedfootingdesign.py lines 1921-1925): thickness in mm minus
cover minus half the X bar diameter, back in metres. -/
def design_dx (foundation_thickness concrete_cover bar_diameterX : ℚ) : ℚ :=
  (foundation_thickness * 1000 - concrete_cover - bar_diameterX / 2) / 1000

/-- Effective depth `self.dy` of the design classes (foundationdesign.py lines
1288-1293 and combinedfootingdesign.py lines 1926-1931). -/
def design_dy (foundation_thickness concrete_cover bar_diameterY
    bar_diameterX : ℚ) : ℚ :=
  (foundation_thickness * 1000 - concrete_cover - bar_diameterY / 2
    - bar_diameterX) / 1000

/-- State of the design class `padFoundationDesign` (foundationdesign.py lines
1187-1305): the wrapped analysis object, material parameters, the derived
effective depths and the punching-shear stress factor `beta`. -/
structure padFoundationDesign where
  PadFoundation : PadFoundation
  fck : ℚ
  fyk : ℚ
  concrete_cover : ℚ
  bar_diameterX : ℚ
  bar_diameterY : ℚ
  dx : ℚ
  dy : ℚ
  beta : ℚ

/-- Constructor `padFoundationDesign.__init__` (source lines 1250-1305):
stores the parameters, derives `dx` and `dy` from the foundation thickness,
and initializes `beta` to 0. -/
def padFoundationDesign.init (pf : FoundationDesign.PadFoundation) (fck : ℚ := 25)
    (fyk : ℚ := 460) (concrete_cover : ℚ := 30) (bar_diameterX : ℚ := 16)
    (bar_diameterY : ℚ := 16) : padFoundationDesign where
  PadFoundation := pf
  fck := fck
  fyk := fyk
  concrete_cover := concrete_cover
  bar_diameterX := bar_diameterX
  bar_diameterY := bar_diameterY
  dx := design_dx pf.foundation_thickness concrete_cover bar_diameterX
  dy := design_dy pf.foundation_thickness concrete_cover bar_diameterY
    bar_diameterX
  beta := 0

/-- Method `update_punching_shear_stress_factor` (source lines 1749-1771):
if the argument lies in `beta_values = [1.5, 1.4, 1.15]` it is stored,
otherwise the stored factor is set back to 0; in both branches the method
returns the argument itself.  No branch raises. -/
def padFoundationDesign.update_punching_shear_stress_factor
    (self : padFoundationDesign) (beta : ℚ := 0) : padFoundationDesign × ℚ :=
  if beta = 1.5 ∨ beta = 1.4 ∨ beta = 1.15 then
    ({ self with beta := beta }, beta)
  else
    ({ self with beta := 0 }, beta)

/-- The beta-selection branch of `punching_shear_check_1d` (source lines
1951-1958): when the stored factor is 0 the value computed there from the
expression-6.51 formula is used, otherwise the stored override is used.  The
computed value is passed in as a parameter. -/
def padFoundationDesign.punching_shear_beta_1d (self : padFoundationDesign)
    (computed : ℚ) : ℚ :=
  if self.beta = 0 then computed else self.beta

/-- The four entries of the lists `column_1_geometry` / `column_2_geometry`
of `CombinedFootingAnalysis` in index order (combinedfootingdesign.py lines
201-208 and 261-268): [0] column length, [1] column width, [2] column x
position, [3] column y position. -/
structure ColumnGeometry where
  column_length : ℚ
  column_width : ℚ
  col_pos_xdir : ℚ
  col_pos_ydir : ℚ

/-- The condition of the explicit `return None` branch of
`CombinedFootingDesign.col_1_punching_shear_check_2d` (combinedfootingdesign.py
lines 2965-2969).  With `average_depth = 2 * np.average([self.dy, self.dx])`,
the method returns `None` exactly when this condition holds and otherwise goes
on to compute a pass/fail verdict from the 2d perimeter.  The comparison reads
entries [2] and [3] of `column_1_geometry`, which are the column position
coordinates, not the footprint dimensions at entries [0] and [1]. -/
def col_1_punching_shear_check_2d_null_condition (geom : ColumnGeometry)
    (dx dy : ℚ) : Prop :=
  let average_depth := 2 * ((dy + dx) / 2)
  geom.col_pos_xdir < average_depth ∨ geom.col_pos_ydir < average_depth

/-- Bar selection of `reinforcement_provision` (concretedesignfunc.py lines
203-226): the label and diameter of the bar bucket the required area falls
in. -/
def reinforcement_provision_bar (assteel : ℚ) : String × ℚ :=
  if assteel ≤ 402 then ("8mm", 8)
  else if assteel ≤ 628 then ("10mm", 10)
  else if assteel ≤ 905 then ("12mm", 12)
  else if assteel ≤ 1610 then ("16mm", 16)
  else if assteel ≤ 2510 then ("20mm", 20)
  else if assteel ≤ 3930 then ("25mm", 25)
  else if assteel ≤ 6430 then ("32mm", 32)
  else ("40mm", 40)

/-- Steel class label selection of `reinforcement_provision` (source lines
195-202).  No branch assigns a label when `fy > 500`; the Python function
then hits a `NameError` on the unbound `t` at the return statement, modelled
by `none`. -/
def reinforcement_provision_label (fy : ℚ) : Option String :=
  if fy ≤ 250 then some "R"
  else if fy ≤ 410 then some "Y"
  else if fy ≤ 460 then some "T"
  else if fy ≤ 500 then some "H"
  else none

/-- Bar area `(math.pi * dia ** 2) / 4` (source line 227) of the selected
bucket, using the exact rational value of the double `math.pi`. -/
def reinforcement_provision_area (assteel : ℚ) : ℚ :=
  piFloat * (reinforcement_provision_bar assteel).2 ^ 2 / 4

/-- Spacing computation of `reinforcement_provision` (source lines 228-235):
the exact spacing `1000 / (assteel / area)` is truncated down to a multiple
of 25 mm, then capped at 200 mm for mild steel or at 250 mm for higher
grades. -/
def reinforcement_provision_sv (assteel fy : ℚ) : ℤ :=
  let area := reinforcement_provision_area assteel
  let v1 := assteel / area
  let v := 1000 / v1
  let n := pyInt (v / 25) * 25
  if 200 < n ∧ fy ≤ 250 then 200
  else if 250 < n ∧ 250 < fy then 250
  else n

/-- Provided steel area `round(area * (1000 / sv))` (source line 236). -/
def reinforcement_provision_asteel_provided (assteel fy : ℚ) : ℤ :=
  pyRound (reinforcement_provision_area assteel
    * (1000 / (reinforcement_provision_sv assteel fy : ℚ)))

/-- Function `reinforcement_provision` (concretedesignfunc.py lines 172-237).
A zero spacing makes `1000 / sv` raise `ZeroDivisionError`; a yield strength
above 500 leaves the label variable unbound and the return statement raises
`NameError`.  Both failures are modelled by `Except.error`; the success value
is the returned list `[t, rd, sv, asteel_provided]`. -/
def reinforcement_provision (assteel fy : ℚ) :
    Except String (String × String × ℚ × ℤ) :=
  let rd := (reinforcement_provision_bar assteel).1
  let sv := reinforcement_provision_sv assteel fy
  if sv = 0 then .error "ZeroDivisionError: float division by zero"
  else
    match reinforcement_provision_label fy with
    | some t =>
        .ok (t, rd, (sv : ℚ), reinforcement_provision_asteel_provided assteel fy)
    | none => .error "NameError: name t is not defined"

/-- The `PadFoundation` used by the repository test suite and the round-trip
property of the spec: 3600 x 3000 footing, 450 x 450 column at (1800, 1500),
thickness 550 with no soil above, loads 770/330 axial, 35/15 horizontal X,
78/34 moment X. -/
def testPad : PadFoundation :=
  ((((PadFoundation.init 3600 3000 450 450 1800 1500 150).foundation_loads
        550 0 18 24).1.column_axial_loads 770 330 0).column_horizontal_loads_xdir
      35 15 0).column_moments_xdir 78 34 0

/-- Values that can be assigned to a load attribute: a number, or a
non-numeric object such as a string.  This is the input domain of the load
setters for the validation claims. -/
inductive PyValue where
  | num (q : ℚ)
  | str (s : String)

/-- Modelled from the spec: `assert_number` is defined in
FoundationDesign/datavalidation.py, which is not among the sources; section 7
of the spec says a non-numeric value is rejected with a validation error
raised at the assignment call.  The check therefore succeeds exactly on
numeric values. -/
def assert_number : PyValue → Bool
  | .num _ => true
  | .str _ => false

/-- The three attributes written by `PadFoundation.column_axial_loads`, over
possibly non-numeric values. -/
structure AxialLoadsState where
  permanent_axial_load : PyValue
  imposed_axial_load : PyValue
  wind_axial_load : PyValue

/-- Method `PadFoundation.column_axial_loads` (foundationdesign.py lines
321-346) restricted to the three attributes it touches, over possibly
non-numeric inputs: the assignments at lines 340-342 happen first, then the
`assert_number` validations at lines 344-346 run and the first failing one
raises.  The result is the state the object is left in together with the
raised error, if any. -/
def column_axial_loads_validated (self : AxialLoadsState)
    (permanent_axial_load imposed_axial_load wind_axial_load : PyValue) :
    AxialLoadsState × Option String :=
  let s : AxialLoadsState :=
    { self with
      permanent_axial_load := permanent_axial_load
      imposed_axial_load := imposed_axial_load
      wind_axial_load := wind_axial_load }
  if !assert_number permanent_axial_load then
    (s, some "Permanent Axial Loads should be a number")
  else if !assert_number imposed_axial_load then
    (s, some "Imposed Axial Loads should be a number")
  else if !assert_number wind_axial_load then
    (s, some "Wind Axial Loads should be a number")
  else (s, none)

/-- The attributes written by `CombinedFootingAnalysis.update_column_1_axial_loads`:
three scalar attributes plus the `column_1_axial_loads` list (kept as a
triple). -/
structure Column1AxialLoadsState where
  permanent_axial_load : PyValue
  imposed_axial_load : PyValue
  wind_axial_load : PyValue
  column_1_axial_loads : PyValue × PyValue × PyValue

/-- Method `CombinedFootingAnalysis.update_column_1_axial_loads`
(combinedfootingdesign.py lines 270-303): the scalar assignments at lines
292-294 happen first, then the `assert_number` validations at lines 296-298
run, and only on success is the `column_1_axial_loads` list cleared and
refilled at lines 300-303.  A failing validation therefore leaves the object
with updated scalars but the old list. -/
def update_column_1_axial_loads_validated (self : Column1AxialLoadsState)
    (permanent_axial_load imposed_axial_load wind_axial_load : PyValue) :
    Column1AxialLoadsState × Option String :=
  let s : Column1AxialLoadsState :=
    { self with
      permanent_axial_load := permanent_axial_load
      imposed_axial_load := imposed_axial_load
      wind_axial_load := wind_axial_load }
  if !assert_number permanent_axial_load then
    (s, some "Permanent Axial Loads should be a number")
  else if !assert_number imposed_axial_load then
    (s, some "Imposed Axial Loads should be a number")
  else if !assert_number wind_axial_load then
    (s, some "Wind Axial Loads should be a number")
  else
    ({ s with column_1_axial_loads :=
        (permanent_axial_load, imposed_axial_load, wind_axial_load) }, none)

/-- Intermediate value `n` of `reinforcement_provision` (concretedesignfunc.py
lines 228-230): the exact spacing `1000 / (assteel / area)` truncated down to
a multiple of 25, before the grade cap is applied. -/
def reinforcement_provision_n (assteel : ℚ) : ℤ :=
  pyInt ((1000 / (assteel / reinforcement_provision_area assteel)) / 25) * 25

/-- The spacing cap of `reinforcement_provision` (source lines 231-234):
200 mm for mild steel, 250 mm for higher grades. -/
def reinforcement_provision_cap (fy : ℚ) : ℤ :=
  if fy ≤ 250 then 200 else 250

/-- A symmetric `PadFoundation`: 3000 x 3000 footing, 400 x 400 column at the
centre (1500, 1500), thickness 500 with no soil above, a single permanent
axial load of 1000 kN.  Both eccentricities evaluate to zero. -/
def symPad : PadFoundation :=
  ((PadFoundation.init 3000 3000 400 400 1500 1500 150).foundation_loads
      500 0 18 24).1.column_axial_loads 1000 0 0

/-- The `column_1_geometry` of a combined footing with a 450 x 450 column at
position (1800, 1500) (all in metres after normalization). -/
def combinedTestColumn1 : ColumnGeometry :=
  { column_length := 450 / 1000
    column_width := 450 / 1000
    col_pos_xdir := 1800 / 1000
    col_pos_ydir := 1500 / 1000 }

/-- Effective depth `dx` for a 550 mm thick section with 30 mm cover and
16 mm bars (= 0.512 m). -/
def testDesignDx : ℚ := design_dx (550 / 1000) 30 16

/-- Effective depth `dy` for a 550 mm thick section with 30 mm cover and
16 mm bars both ways (= 0.496 m). -/
def testDesignDy : ℚ := design_dy (550 / 1000) 30 16 16

theorem floor_le_pyRound (q : ℚ) : ⌊q⌋ ≤ pyRound q := by
  simp only [pyRound]
  split_ifs <;> omega

theorem pyRound_le_floor_add_one (q : ℚ) : pyRound q ≤ ⌊q⌋ + 1 := by
  simp only [pyRound]
  split_ifs <;> omega

theorem pyRound_ge_sub_half (q : ℚ) : q - 1/2 ≤ (pyRound q : ℚ) := by
  have hf : (⌊q⌋ : ℚ) ≤ q := Int.floor_le q
  have hc : q < (⌊q⌋ : ℚ) + 1 := Int.lt_floor_add_one q
  simp only [pyRound]
  split_ifs <;> push_cast <;> linarith

theorem pyRound_mono {a b : ℚ} (hab : a ≤ b) : pyRound a ≤ pyRound b := by
  rcases lt_or_eq_of_le (Int.floor_le_floor hab) with hf | hf
  · calc pyRound a ≤ ⌊a⌋ + 1 := pyRound_le_floor_add_one a
      _ ≤ ⌊b⌋ := by omega
      _ ≤ pyRound b := floor_le_pyRound b
  · simp only [pyRound, hf]
    have hr : a - (⌊b⌋ : ℚ) ≤ b - (⌊b⌋ : ℚ) := by linarith
    split_ifs <;> first | omega | (exfalso; linarith)

theorem intCast_le_pyRound {m : ℤ} {q : ℚ} (h : (m : ℚ) ≤ q) : m ≤ pyRound q :=
  le_trans (Int.le_floor.mpr h) (floor_le_pyRound q)

theorem pyInt_eq_floor {q : ℚ} (h : 0 ≤ q) : pyInt q = ⌊q⌋ := by
  simp only [pyInt, if_pos h]

theorem pyInt_mono {a b : ℚ} (hab : a ≤ b) : pyInt a ≤ pyInt b := by
  simp only [pyInt]
  split_ifs with ha hb
  · exact Int.floor_le_floor hab
  · exact absurd (le_trans ha hab) hb
  · have h1 : ⌊-a⌋ ≥ 0 := Int.le_floor.mpr (by push_cast; linarith)
    have h2 : (0:ℤ) ≤ ⌊b⌋ := Int.le_floor.mpr (by push_cast; linarith)
    omega
  · have := Int.floor_le_floor (neg_le_neg hab)
    omega

theorem pyInt_le_self {q : ℚ} (h : 0 ≤ q) : (pyInt q : ℚ) ≤ q := by
  rw [pyInt_eq_floor h]
  exact Int.floor_le q

theorem one_le_pyInt {q : ℚ} (h : 1 ≤ q) : 1 ≤ pyInt q := by
  rw [pyInt_eq_floor (by linarith)]
  exact Int.le_floor.mpr (by push_cast; linarith)

theorem const_div_antitone {c x y : ℚ} (hc : 0 ≤ c) (hx : 0 < x)
    (hxy : x ≤ y) : c / y ≤ c / x := by
  rw [div_le_div_iff (lt_of_lt_of_le hx hxy) hx]
  exact mul_le_mul_of_nonneg_left hxy hc

theorem reinforcement_provision_bar_dia_pos (a : ℚ) :
    0 < (reinforcement_provision_bar a).2 := by
  simp only [reinforcement_provision_bar]
  split_ifs <;> norm_num

set_option maxHeartbeats 2000000 in
theorem reinforcement_provision_bar_dia_mono {a b : ℚ} (hab : a ≤ b) :
    (reinforcement_provision_bar a).2 ≤ (reinforcement_provision_bar b).2 := by
  simp only [reinforcement_provision_bar]
  split_ifs <;> dsimp only <;> linarith

theorem reinforcement_provision_area_pos (a : ℚ) :
    0 < reinforcement_provision_area a := by
  have h := reinforcement_provision_bar_dia_pos a
  have hpi : (0:ℚ) < piFloat := by norm_num [piFloat]
  simp only [reinforcement_provision_area]
  exact div_pos (mul_pos hpi (pow_pos h 2)) (by norm_num)

theorem reinforcement_provision_cap_pos (fy : ℚ) :
    0 < reinforcement_provision_cap fy := by
  simp only [reinforcement_provision_cap]
  split_ifs <;> norm_num

theorem reinforcement_provision_sv_eq (a fy : ℚ) :
    reinforcement_provision_sv a fy
      = min (reinforcement_provision_n a) (reinforcement_provision_cap fy) := by
  simp only [reinforcement_provision_sv, reinforcement_provision_n,
    reinforcement_provision_cap]
  set m := pyInt (1000 / (a / reinforcement_provision_area a) / 25) * 25 with hm
  rcases le_or_lt fy 250 with hfy | hfy
  · rw [if_pos hfy]
    split_ifs with h1 h2
    · obtain ⟨h1a, -⟩ := h1
      omega
    · exact absurd hfy (by linarith [h2.2])
    · have h200 : ¬ 200 < m := fun hc => h1 ⟨hc, hfy⟩
      omega
  · rw [if_neg (not_le.mpr hfy)]
    split_ifs with h1 h2
    · exact absurd h1.2 (not_le.mpr hfy)
    · obtain ⟨h2a, -⟩ := h2
      omega
    · have h250 : ¬ 250 < m := fun hc => h2 ⟨hc, hfy⟩
      omega

theorem reinforcement_provision_n_ge_25 {a : ℚ} (h0 : 0 < a)
    (hcap : a ≤ 40 * reinforcement_provision_area a) :
    25 ≤ reinforcement_provision_n a := by
  have hA := reinforcement_provision_area_pos a
  have hv25 : (1:ℚ) ≤ 1000 / (a / reinforcement_provision_area a) / 25 := by
    rw [div_div_eq_mul_div, div_div, le_div_iff (by positivity)]
    linarith
  have h1 := one_le_pyInt hv25
  simp only [reinforcement_provision_n]
  omega

theorem reinforcement_provision_sv_pos {a : ℚ} (fy : ℚ) (h0 : 0 < a)
    (hcap : a ≤ 40 * reinforcement_provision_area a) :
    0 < reinforcement_provision_sv a fy := by
  rw [reinforcement_provision_sv_eq]
  have h1 := reinforcement_provision_n_ge_25 h0 hcap
  have h2 := reinforcement_provision_cap_pos fy
  omega

theorem reinforcement_provision_sv_le_exact {a : ℚ} (fy : ℚ) (h0 : 0 < a) :
    (reinforcement_provision_sv a fy : ℚ)
      ≤ 1000 / (a / reinforcement_provision_area a) := by
  have hA := reinforcement_provision_area_pos a
  have hvpos : (0:ℚ) ≤ 1000 / (a / reinforcement_provision_area a) / 25 := by
    positivity
  have hle : (pyInt (1000 / (a / reinforcement_provision_area a) / 25) : ℚ)
      ≤ 1000 / (a / reinforcement_provision_area a) / 25 := pyInt_le_self hvpos
  rw [reinforcement_provision_sv_eq]
  calc ((min (reinforcement_provision_n a) (reinforcement_provision_cap fy) : ℤ) : ℚ)
      ≤ ((reinforcement_provision_n a : ℤ) : ℚ) := by
        exact_mod_cast Int.min_le_left _ _
    _ ≤ 1000 / (a / reinforcement_provision_area a) := by
        simp only [reinforcement_provision_n]
        push_cast
        linarith

/-- C1: for every `PadFoundation` state, `total_force_Z_dir_uls` equals
1.35 times (permanent axial load plus footing area times the
self-weight-plus-surcharge pressures) plus 1.5 times the imposed axial load
plus 1.5 times the wind axial load, rounded to 3 decimal places; and
`column_axial_loads` replaces the stored loads, so repeated calls are
absorbed by the final one. -/
theorem claim_C1_total_force_Z_dir_uls (s : PadFoundation)
    (p i w p0 i0 w0 : ℚ) :
    s.total_force_Z_dir_uls
      = roundTo 3 (1.35 * (s.permanent_axial_load
            + s.area_of_foundation * (s.fdn_loads.1 + s.fdn_loads.2))
          + 1.5 * s.imposed_axial_load + 1.5 * s.wind_axial_load)
      ∧ (s.column_axial_loads p0 i0 w0).column_axial_loads p i w
          = s.column_axial_loads p i w := by
  constructor
  · simp only [PadFoundation.total_force_Z_dir_uls,
      PadFoundation.uls_strength_factor_permanent,
      PadFoundation.uls_strength_factor_imposed]
    congr 1
    ring
  · rfl

/-- C2, failing evaluation: on the test-suite foundation, setting the imposed
column moment about Y to 34 kNm leaves `total_moments_Y_direction_uls`
unchanged, because source line 990 multiplies that term by
`uls_strength_factor_imposed_unfavourable` (default 0) instead of the imposed
factor 1.5 that `total_moments_X_direction_uls` applies; the same change in
the X direction moves the X-direction total. -/
theorem claim_C2_imposed_moment_Y_uls_dropped :
    (testPad.column_moments_ydir 0 34 0).total_moments_Y_direction_uls
        = (testPad.column_moments_ydir 0 0 0).total_moments_Y_direction_uls
      ∧ (testPad.column_moments_xdir 78 34 0).total_moments_X_direction_uls
          ≠ (testPad.column_moments_xdir 78 0 0).total_moments_X_direction_uls := by
  have hy34 : (testPad.column_moments_ydir 0 34 0).total_moments_Y_direction_uls
      = 2590.434 := by
    norm_num [testPad, PadFoundation.init, PadFoundation.foundation_loads,
      PadFoundation.column_axial_loads, PadFoundation.column_horizontal_loads_xdir,
      PadFoundation.column_moments_xdir, PadFoundation.column_moments_ydir,
      PadFoundation.total_moments_Y_direction_uls,
      PadFoundation.uls_strength_factor_permanent,
      PadFoundation.uls_strength_factor_imposed,
      PadFoundation.uls_strength_factor_imposed_unfavourable,
      PadFoundation.area_of_foundation, PadFoundation.fdn_loads, roundTo, pyRound]
  have hy0 : (testPad.column_moments_ydir 0 0 0).total_moments_Y_direction_uls
      = 2590.434 := by
    norm_num [testPad, PadFoundation.init, PadFoundation.foundation_loads,
      PadFoundation.column_axial_loads, PadFoundation.column_horizontal_loads_xdir,
      PadFoundation.column_moments_xdir, PadFoundation.column_moments_ydir,
      PadFoundation.total_moments_Y_direction_uls,
      PadFoundation.uls_strength_factor_permanent,
      PadFoundation.uls_strength_factor_imposed,
      PadFoundation.uls_strength_factor_imposed_unfavourable,
      PadFoundation.area_of_foundation, PadFoundation.fdn_loads, roundTo, pyRound]
  have hx34 : (testPad.column_moments_xdir 78 34 0).total_moments_X_direction_uls
      = 3303.183 := by
    norm_num [testPad, PadFoundation.init, PadFoundation.foundation_loads,
      PadFoundation.column_axial_loads, PadFoundation.column_horizontal_loads_xdir,
      PadFoundation.column_moments_xdir,
      PadFoundation.total_moments_X_direction_uls,
      PadFoundation.uls_strength_factor_permanent,
      PadFoundation.uls_strength_factor_imposed,
      PadFoundation.area_of_foundation, PadFoundation.fdn_loads, roundTo, pyRound]
  have hx0 : (testPad.column_moments_xdir 78 0 0).total_moments_X_direction_uls
      = 3252.183 := by
    norm_num [testPad, PadFoundation.init, PadFoundation.foundation_loads,
      PadFoundation.column_axial_loads, PadFoundation.column_horizontal_loads_xdir,
      PadFoundation.column_moments_xdir,
      PadFoundation.total_moments_X_direction_uls,
      PadFoundation.uls_strength_factor_permanent,
      PadFoundation.uls_strength_factor_imposed,
      PadFoundation.area_of_foundation, PadFoundation.fdn_loads, roundTo, pyRound]
  rw [hy34, hy0, hx34, hx0]
  norm_num

/-- C3: the round-trip on the concretely constructed foundation (3600 x 3000
footing, 450 x 450 column at (1800, 1500), thickness 550, no soil above,
770/330 axial, 35/15 horizontal X, 78/34 moment X): the SLS force totals,
the X eccentricity and the four corner pressures are exactly the values the
spec lists. -/
theorem claim_C3_round_trip :
    testPad.total_force_X_dir_sls = 50
      ∧ testPad.total_force_Z_dir_sls = 1242.56
      ∧ testPad.eccentricity_X_direction_sls = 112
      ∧ testPad.pad_base_pressures_sls = (93.576, 93.576, 136.528, 136.528) := by
  refine ⟨?_, ?_, ?_, ?_⟩ <;>
    norm_num [testPad, PadFoundation.init, PadFoundation.foundation_loads,
      PadFoundation.column_axial_loads, PadFoundation.column_horizontal_loads_xdir,
      PadFoundation.column_moments_xdir, PadFoundation.total_force_X_dir_sls,
      PadFoundation.total_force_Z_dir_sls, PadFoundation.pad_base_pressures_sls,
      PadFoundation.eccentricity_X_direction_sls,
      PadFoundation.eccentricity_Y_direction_sls,
      PadFoundation.total_moments_X_direction_sls,
      PadFoundation.total_moments_Y_direction_sls,
      PadFoundation.area_of_foundation, PadFoundation.fdn_loads, roundTo, pyRound]

/-- C4: for every `PadFoundation` whose computed SLS eccentricities are both
zero, `pad_base_pressures_sls` yields four equal corner pressures, each the
3-decimal rounding of the total SLS axial force divided by the foundation
area. -/
theorem claim_C4_zero_eccentricity_uniform_pressures (s : PadFoundation)
    (hx : s.eccentricity_X_direction_sls = 0)
    (hy : s.eccentricity_Y_direction_sls = 0) :
    s.pad_base_pressures_sls
      = (roundTo 3 (s.total_force_Z_dir_sls / s.area_of_foundation),
         roundTo 3 (s.total_force_Z_dir_sls / s.area_of_foundation),
         roundTo 3 (s.total_force_Z_dir_sls / s.area_of_foundation),
         roundTo 3 (s.total_force_Z_dir_sls / s.area_of_foundation)) := by
  simp only [PadFoundation.pad_base_pressures_sls, hx, hy]
  norm_num [mul_one_div, div_eq_mul_inv]

/-- Witness for C4 at the symmetric foundation: both eccentricities are zero
and the four pressures coincide with the rounded average pressure. -/
theorem claim_C4_zero_eccentricity_uniform_pressures_witness :
    symPad.eccentricity_X_direction_sls = 0
      ∧ symPad.eccentricity_Y_direction_sls = 0
      ∧ symPad.pad_base_pressures_sls
        = (roundTo 3 (symPad.total_force_Z_dir_sls / symPad.area_of_foundation),
           roundTo 3 (symPad.total_force_Z_dir_sls / symPad.area_of_foundation),
           roundTo 3 (symPad.total_force_Z_dir_sls / symPad.area_of_foundation),
           roundTo 3 (symPad.total_force_Z_dir_sls / symPad.area_of_foundation)) := by
  have hx : symPad.eccentricity_X_direction_sls = 0 := by
    norm_num [symPad, PadFoundation.init, PadFoundation.foundation_loads,
      PadFoundation.column_axial_loads, PadFoundation.eccentricity_X_direction_sls,
      PadFoundation.total_moments_X_direction_sls, PadFoundation.total_force_Z_dir_sls,
      PadFoundation.area_of_foundation, PadFoundation.fdn_loads, roundTo, pyRound]
  have hy : symPad.eccentricity_Y_direction_sls = 0 := by
    norm_num [symPad, PadFoundation.init, PadFoundation.foundation_loads,
      PadFoundation.column_axial_loads, PadFoundation.eccentricity_Y_direction_sls,
      PadFoundation.total_moments_Y_direction_sls, PadFoundation.total_force_Z_dir_sls,
      PadFoundation.area_of_foundation, PadFoundation.fdn_loads, roundTo, pyRound]
  exact ⟨hx, hy, claim_C4_zero_eccentricity_uniform_pressures symPad hx hy⟩

/-- C5, failing evaluation: for a 550 mm thick combined footing design with
30 mm cover and 16 mm bars, twice the average effective depth (1.008 m)
exceeds both footprint dimensions of a 450 x 450 column, yet the `return
None` guard of `col_1_punching_shear_check_2d` does not fire, because it
compares against the column position entries of `column_1_geometry` (1.8 and
1.5), not the footprint dimensions; the check therefore proceeds to compute a
verdict.  The pad design class has no such guard at all. -/
theorem claim_C5_2d_null_guard_reads_positions :
    combinedTestColumn1.column_length
        < 2 * ((testDesignDy + testDesignDx) / 2)
      ∧ combinedTestColumn1.column_width
          < 2 * ((testDesignDy + testDesignDx) / 2)
      ∧ ¬ col_1_punching_shear_check_2d_null_condition combinedTestColumn1
            testDesignDx testDesignDy := by
  norm_num [combinedTestColumn1, testDesignDx, testDesignDy, design_dx,
    design_dy, col_1_punching_shear_check_2d_null_condition]

/-- C6, counterexample: on the test-suite foundation the bearing check
returns `None` (the value of `print`), not a verdict paired with the compared
quantities. -/
theorem claim_C6_bearing_check_returns_none :
    (testPad.bearing_pressure_check_sls).1 = none := by
  simp only [PadFoundation.bearing_pressure_check_sls]
  split <;> rfl

/-- C6 amended: for every `PadFoundation`, `bearing_pressure_check_sls`
prints the PASS message exactly when both the minimum and the maximum of the
four SLS corner pressures are at most the soil bearing capacity (otherwise
the Fail message), and it returns `None` to the caller in either case; the
compared numeric values are not part of the returned value. -/
theorem claim_C6_bearing_check_printed_verdict (s : PadFoundation) :
    (s.bearing_pressure_check_sls).1 = none
      ∧ ((s.bearing_pressure_check_sls).2
            = "PASS - Presumed bearing capacity exceeds design base pressure"
          ↔ min (min (min (s.pad_base_pressures_sls).1
                  (s.pad_base_pressures_sls).2.1)
                (s.pad_base_pressures_sls).2.2.1) (s.pad_base_pressures_sls).2.2.2
              ≤ s.soil_bearing_capacity
            ∧ max (max (max (s.pad_base_pressures_sls).1
                  (s.pad_base_pressures_sls).2.1)
                (s.pad_base_pressures_sls).2.2.1) (s.pad_base_pressures_sls).2.2.2
              ≤ s.soil_bearing_capacity) := by
  simp only [PadFoundation.bearing_pressure_check_sls]
  split_ifs with h
  · exact ⟨rfl, iff_of_true rfl h⟩
  · refine ⟨rfl, iff_of_false ?_ h⟩
    intro hc
    exact absurd hc (by decide)

/-- C7, counterexample: required areas 905 and 906 mm2/m at fy = 460 select
bar diameters 12 and 16 respectively, but the provided area drops from 1131
to 1005 mm2/m across the bucket boundary, so the provided area is not
monotone in the required area. -/
theorem claim_C7_provided_area_not_monotone :
    (905 : ℚ) ≤ 906
      ∧ reinforcement_provision_asteel_provided 906 460
          < reinforcement_provision_asteel_provided 905 460 := by
  have h905 : reinforcement_provision_asteel_provided 905 460 = 1131 := by
    norm_num [reinforcement_provision_asteel_provided, reinforcement_provision_sv,
      reinforcement_provision_area, reinforcement_provision_bar, piFloat, pyInt,
      pyRound]
  have h906 : reinforcement_provision_asteel_provided 906 460 = 1005 := by
    norm_num [reinforcement_provision_asteel_provided, reinforcement_provision_sv,
      reinforcement_provision_area, reinforcement_provision_bar, piFloat, pyInt,
      pyRound]
  rw [h905, h906]
  norm_num

/-- C7 amended: for every yield strength and required areas a1 at most a2,
the selected bar diameter never decreases; and when both areas select the
same diameter (and the spacing for a2 is defined, that is a2 does not exceed
the maximum provision of the selected bar at 25 mm spacing), the provided
area never decreases either.  Across a diameter change the provided area can
decrease, as the counterexample shows. -/
theorem claim_C7_bar_selection_monotonic (fy a1 a2 : ℚ) (h0 : 0 < a1)
    (h12 : a1 ≤ a2) :
    (reinforcement_provision_bar a1).2 ≤ (reinforcement_provision_bar a2).2
      ∧ ((reinforcement_provision_bar a1).2 = (reinforcement_provision_bar a2).2 →
          a2 ≤ 40 * reinforcement_provision_area a2 →
          reinforcement_provision_asteel_provided a1 fy
            ≤ reinforcement_provision_asteel_provided a2 fy) := by
  refine ⟨reinforcement_provision_bar_dia_mono h12, fun hdia hcap => ?_⟩
  have h02 : 0 < a2 := lt_of_lt_of_le h0 h12
  have harea : reinforcement_provision_area a1 = reinforcement_provision_area a2 := by
    simp only [reinforcement_provision_area, hdia]
  have hA : 0 < reinforcement_provision_area a2 := reinforcement_provision_area_pos a2
  have hv : 1000 / (a2 / reinforcement_provision_area a2) / 25
      ≤ 1000 / (a1 / reinforcement_provision_area a1) / 25 := by
    rw [harea]
    have hden : a1 / reinforcement_provision_area a2
        ≤ a2 / reinforcement_provision_area a2 := by gcongr
    have hdpos : 0 < a1 / reinforcement_provision_area a2 := div_pos h0 hA
    have h1 := const_div_antitone (by norm_num : (0:ℚ) ≤ 1000) hdpos hden
    linarith
  have hn : reinforcement_provision_n a2 ≤ reinforcement_provision_n a1 := by
    have h1 := pyInt_mono hv
    simp only [reinforcement_provision_n]
    omega
  have h25 : (25:ℤ) ≤ reinforcement_provision_n a2 :=
    reinforcement_provision_n_ge_25 h02 hcap
  have hsv2pos : 0 < reinforcement_provision_sv a2 fy :=
    reinforcement_provision_sv_pos fy h02 hcap
  have hsvmono : reinforcement_provision_sv a2 fy
      ≤ reinforcement_provision_sv a1 fy := by
    rw [reinforcement_provision_sv_eq, reinforcement_provision_sv_eq]
    omega
  simp only [reinforcement_provision_asteel_provided]
  apply pyRound_mono
  rw [harea]
  have hc2 : (0:ℚ) < (reinforcement_provision_sv a2 fy : ℚ) := by
    exact_mod_cast hsv2pos
  have hcc : (reinforcement_provision_sv a2 fy : ℚ)
      ≤ (reinforcement_provision_sv a1 fy : ℚ) := by exact_mod_cast hsvmono
  have hd := const_div_antitone (by norm_num : (0:ℚ) ≤ 1000) hc2 hcc
  exact mul_le_mul_of_nonneg_left hd (le_of_lt hA)

/-- Witness for C7 amended at fy = 460, a1 = 500, a2 = 600 (both 10 mm
bars). -/
theorem claim_C7_bar_selection_monotonic_witness :
    (reinforcement_provision_bar 500).2 ≤ (reinforcement_provision_bar 600).2
      ∧ reinforcement_provision_asteel_provided 500 460
          ≤ reinforcement_provision_asteel_provided 600 460 := by
  have h := claim_C7_bar_selection_monotonic 460 500 600 (by norm_num) (by norm_num)
  exact ⟨h.1, h.2 (by norm_num [reinforcement_provision_bar])
    (by norm_num [reinforcement_provision_area, reinforcement_provision_bar,
      piFloat])⟩

/-- C8, counterexample: at required area 60000 mm2/m (above the 40 mm bar
maximum provision) the computed spacing truncates to 0 and the function
raises `ZeroDivisionError` instead of returning a defined result. -/
theorem claim_C8_crashes_on_large_area :
    reinforcement_provision 60000 460
      = .error "ZeroDivisionError: float division by zero" := by
  norm_num [reinforcement_provision, reinforcement_provision_sv,
    reinforcement_provision_area, reinforcement_provision_bar, piFloat, pyInt]

/-- C8 amended: for every positive required area for which the computed
spacing is nonzero (the area does not exceed the 40 mm bar maximum
provision) and every yield strength at most 500, `reinforcement_provision`
returns a defined result whose provided area is at least the required area
minus one half (the final rounding is to a whole number of mm2); in
particular it is at least the required area whenever the required area is an
integer, as it always is in this library (the callers round it first). -/
theorem claim_C8_provided_area_covers_required (a fy : ℚ) (h0 : 0 < a)
    (hfy : fy ≤ 500) (hcap : a ≤ 40 * reinforcement_provision_area a) :
    ∃ t rd sv prov,
      reinforcement_provision a fy = .ok (t, rd, sv, prov)
        ∧ a - 1/2 ≤ (prov : ℚ)
        ∧ ∀ m : ℤ, a = (m : ℚ) → m ≤ prov := by
  have hA := reinforcement_provision_area_pos a
  have hsvpos := reinforcement_provision_sv_pos fy h0 hcap
  have hsvne : reinforcement_provision_sv a fy ≠ 0 := ne_of_gt hsvpos
  obtain ⟨t, ht⟩ : ∃ t, reinforcement_provision_label fy = some t := by
    simp only [reinforcement_provision_label]
    split_ifs <;> first | exact ⟨_, rfl⟩ | simp_all
  have hsvleq : (reinforcement_provision_sv a fy : ℚ)
      ≤ 1000 / (a / reinforcement_provision_area a) :=
    reinforcement_provision_sv_le_exact fy h0
  have hx : a ≤ reinforcement_provision_area a
      * (1000 / (reinforcement_provision_sv a fy : ℚ)) := by
    have hc2 : (0:ℚ) < (reinforcement_provision_sv a fy : ℚ) := by
      exact_mod_cast hsvpos
    have hd := const_div_antitone (by norm_num : (0:ℚ) ≤ 1000) hc2 hsvleq
    have hsimp : (1000:ℚ) / (1000 / (a / reinforcement_provision_area a))
        = a / reinforcement_provision_area a := by
      rw [div_div_eq_mul_div, mul_comm, mul_div_assoc,
        div_self (by norm_num : (1000:ℚ) ≠ 0), mul_one]
    rw [hsimp] at hd
    calc a = reinforcement_provision_area a
          * (a / reinforcement_provision_area a) := by
          rw [mul_comm, div_mul_cancel₀ _ (ne_of_gt hA)]
      _ ≤ _ := mul_le_mul_of_nonneg_left hd (le_of_lt hA)
  refine ⟨t, (reinforcement_provision_bar a).1,
    (reinforcement_provision_sv a fy : ℚ),
    reinforcement_provision_asteel_provided a fy, ?_, ?_, ?_⟩
  · simp only [reinforcement_provision, ht, if_neg hsvne]
  · have h1 := pyRound_ge_sub_half (reinforcement_provision_area a
      * (1000 / (reinforcement_provision_sv a fy : ℚ)))
    simp only [reinforcement_provision_asteel_provided]
    linarith
  · intro m hm
    apply intCast_le_pyRound
    rw [← hm]
    exact hx

/-- Witness for C8 amended at required area 700 mm2/m and fy = 460. -/
theorem claim_C8_provided_area_covers_required_witness :
    ∃ t rd sv prov,
      reinforcement_provision 700 460 = .ok (t, rd, sv, prov)
        ∧ (700:ℚ) - 1/2 ≤ (prov : ℚ)
        ∧ ∀ m : ℤ, (700:ℚ) = (m : ℚ) → m ≤ prov :=
  claim_C8_provided_area_covers_required 700 460 (by norm_num) (by norm_num)
    (by norm_num [reinforcement_provision_area, reinforcement_provision_bar,
      piFloat])

/-- C9, counterexample: calling the pad axial-load setter with a non-numeric
permanent load raises, yet the stored loads have already been replaced by
the supplied values; in the combined footing setter the scalar attributes
are replaced while the `column_1_axial_loads` list keeps its old value, a
partial mutation. -/
theorem claim_C9_mutation_before_validation :
    ((column_axial_loads_validated ⟨.num 0, .num 0, .num 0⟩
        (.str "not a number") (.num 330) (.num 0)).2).isSome = true
      ∧ (column_axial_loads_validated ⟨.num 0, .num 0, .num 0⟩
          (.str "not a number") (.num 330) (.num 0)).1.imposed_axial_load
          ≠ PyValue.num 0
      ∧ ((update_column_1_axial_loads_validated
            ⟨.num 0, .num 0, .num 0, (.num 0, .num 0, .num 0)⟩
            (.str "not a number") (.num 330) (.num 0)).2).isSome = true
      ∧ (update_column_1_axial_loads_validated
            ⟨.num 0, .num 0, .num 0, (.num 0, .num 0, .num 0)⟩
            (.str "not a number") (.num 330) (.num 0)).1.imposed_axial_load
          ≠ PyValue.num 0
      ∧ (update_column_1_axial_loads_validated
            ⟨.num 0, .num 0, .num 0, (.num 0, .num 0, .num 0)⟩
            (.str "not a number") (.num 330) (.num 0)).1.column_1_axial_loads
          = (PyValue.num 0, PyValue.num 0, PyValue.num 0) := by
  norm_num [column_axial_loads_validated, update_column_1_axial_loads_validated,
    assert_number]

/-- C9 amended: both axial-load setters raise at the call on a non-numeric
input, but only after replacing the scalar load attributes with the supplied
values: the stored scalars always equal the arguments afterwards, the error
is absent exactly when all three inputs are numeric, and the combined
footing updates its `column_1_axial_loads` list only on success. -/
theorem claim_C9_setters_mutate_then_validate (s : AxialLoadsState)
    (t : Column1AxialLoadsState) (p i w : PyValue) :
    ((column_axial_loads_validated s p i w).1.permanent_axial_load = p
      ∧ (column_axial_loads_validated s p i w).1.imposed_axial_load = i
      ∧ (column_axial_loads_validated s p i w).1.wind_axial_load = w
      ∧ ((column_axial_loads_validated s p i w).2 = none
          ↔ (assert_number p && assert_number i && assert_number w) = true))
    ∧ ((update_column_1_axial_loads_validated t p i w).1.permanent_axial_load = p
      ∧ (update_column_1_axial_loads_validated t p i w).1.imposed_axial_load = i
      ∧ (update_column_1_axial_loads_validated t p i w).1.wind_axial_load = w
      ∧ (update_column_1_axial_loads_validated t p i w).1.column_1_axial_loads
          = (if assert_number p && assert_number i && assert_number w
             then (p, i, w) else t.column_1_axial_loads)
      ∧ ((update_column_1_axial_loads_validated t p i w).2 = none
          ↔ (assert_number p && assert_number i && assert_number w) = true)) := by
  cases p <;> cases i <;> cases w <;>
    simp [column_axial_loads_validated, update_column_1_axial_loads_validated,
      assert_number]

/-- C10: `update_punching_shear_stress_factor` always returns its argument
unchanged, whether or not the argument is in the allowed set {1.5, 1.4,
1.15}; on a rejected value it silently stores 0, which makes the subsequent
beta selection of `punching_shear_check_1d` fall back to the computed
expression-6.51 value. -/
theorem claim_C10_beta_override_silent_reset (d : padFoundationDesign)
    (b f : ℚ) :
    (d.update_punching_shear_stress_factor b).2 = b
      ∧ (¬(b = 1.5 ∨ b = 1.4 ∨ b = 1.15) →
          (d.update_punching_shear_stress_factor b).1.beta = 0
            ∧ (d.update_punching_shear_stress_factor b).1.punching_shear_beta_1d f
                = f) := by
  simp only [padFoundationDesign.update_punching_shear_stress_factor]
  split_ifs with h
  · exact ⟨rfl, fun hb => absurd h hb⟩
  · refine ⟨rfl, fun hb => ⟨rfl, ?_⟩⟩
    simp [padFoundationDesign.punching_shear_beta_1d]

/-- Witness for C10 with the rejected override 2 and computed value 7. -/
theorem claim_C10_beta_override_silent_reset_witness :
    ((padFoundationDesign.init testPad).update_punching_shear_stress_factor 2).2
        = 2
      ∧ ((padFoundationDesign.init testPad).update_punching_shear_stress_factor
            2).1.beta = 0
      ∧ ((padFoundationDesign.init testPad).update_punching_shear_stress_factor
            2).1.punching_shear_beta_1d 7 = 7 := by
  have h := claim_C10_beta_override_silent_reset
    (padFoundationDesign.init testPad) 2 7
  have h2 := h.2 (by norm_num)
  exact ⟨h.1, h2.1, h2.2⟩

end FoundationDesign
